import Mathlib

/-!
Verification of the mesytec VME data-word decoder
(`decode_mesytec_vme_data.cc`).

The decoder is a pure function from a 32-bit word to a record holding the
original word, five classification flags, and the extracted fields of the
matched kinds.  The rendering function selects a single kind by testing the
flags in a fixed order (header, data, extended timestamp, end-of-event,
fill, otherwise unrecognized).

Machine integers are modelled as `Nat`; every store into a narrower C
integer field is modelled by an explicit `% 2 ^ width`, mirroring C's
unsigned narrowing conversions (`uint8_t`, `uint16_t`, `uint32_t`).
-/

/-- Classification predicate for a module header word:
`(word & 0xC0000000) == 0x40000000` (line 61 of the source). -/
def is_header (word : Nat) : Bool :=
  word &&& 0xC0000000 == 0x40000000

/-- Classification predicate for a data word: MDPP branch
`(word & 0xF0000000) == 0x10000000` or MxDC branch
`(word & 0xFF800000) == 0x04000000` (lines 62-63 of the source). -/
def is_data (word : Nat) : Bool :=
  (word &&& 0xF0000000 == 0x10000000) || (word &&& 0xFF800000 == 0x04000000)

/-- Classification predicate for an extended timestamp word:
`(word & 0xFF800000) == 0x04800000` (line 64 of the source). -/
def is_ext_ts (word : Nat) : Bool :=
  word &&& 0xFF800000 == 0x04800000

/-- Classification predicate for a fill word: `word == 0x00000000`
(line 65 of the source). -/
def is_fill (word : Nat) : Bool :=
  word == 0x00000000

/-- Classification predicate for an end-of-event word:
`(word & 0xC0000000) == 0xC0000000` (line 66 of the source). -/
def is_eoe (word : Nat) : Bool :=
  word &&& 0xC0000000 == 0xC0000000

/-- The C struct `DecodedVMEDataWord`: the raw word, the five
classification flags, and the extracted fields.  C field widths:
`data_length`/`high_stamp` are `uint16_t`, `low_stamp` is `uint32_t`,
the remaining extracted fields are `uint8_t`. -/
structure DecodedVMEDataWord where
  word : Nat
  header_found : Bool
  data_found : Bool
  extended_ts_found : Bool
  fill_word_found : Bool
  eoe_found : Bool
  data_length : Nat
  module_setting : Nat
  module_id : Nat
  channel_address : Nat
  mdpp_flags : Nat
  high_stamp : Nat
  low_stamp : Nat
deriving DecidableEq

/-- The decoder `decode_mesytec_vme_word` (lines 56-88 of the source).
The struct is zero-initialized; each field group is assigned only when its
flag is set, so unassigned fields stay `0`.  Each assignment into a
narrower unsigned field is reduced `% 2 ^ width` (C narrowing): in
particular `mdpp_flags` is a `uint8_t`, so the quotient
`(word & 0x0FC00000) / 0x0040000` (division by `2 ^ 18`) is truncated
modulo `2 ^ 8`. -/
def decode_mesytec_vme_word (word : Nat) : DecodedVMEDataWord :=
  { word := word
    header_found := is_header word
    data_found := is_data word
    extended_ts_found := is_ext_ts word
    fill_word_found := is_fill word
    eoe_found := is_eoe word
    data_length :=
      if is_header word then (word &&& 0x000003FF) % 2 ^ 16 else 0
    module_id :=
      if is_header word then ((word &&& 0x00FF0000) / 0x10000) % 2 ^ 8 else 0
    module_setting :=
      if is_header word then ((word &&& 0x0000FC00) / 0x400) % 2 ^ 8 else 0
    channel_address :=
      if is_data word then ((word &&& 0x003F0000) / 0x0010000) % 2 ^ 8 else 0
    mdpp_flags :=
      if is_data word then ((word &&& 0x0FC00000) / 0x0040000) % 2 ^ 8 else 0
    high_stamp :=
      if is_ext_ts word then (word &&& 0x0000FFFF) % 2 ^ 16 else 0
    low_stamp :=
      if is_eoe word then (word &&& 0x3FFFFFFF) % 2 ^ 32 else 0 }

/-- The six record kinds of the data model: the five wire patterns plus
`Unrecognized` for a word matching none of them. -/
inductive VMEWordKind where
  | ModuleHeader
  | DataWord
  | ExtendedTimestamp
  | EndOfEvent
  | FillWord
  | Unrecognized
deriving DecidableEq

/-- The kind selected for a decoded record, following the else-if chain of
`print_decoded_vme_word` (lines 96-113 of the source): header, then data,
then extended timestamp, then end-of-event, then fill; a record matching
none of the flags prints no descriptor, modelled as `Unrecognized`. -/
def selected_kind (dw : DecodedVMEDataWord) : VMEWordKind :=
  if dw.header_found then VMEWordKind.ModuleHeader
  else if dw.data_found then VMEWordKind.DataWord
  else if dw.extended_ts_found then VMEWordKind.ExtendedTimestamp
  else if dw.eoe_found then VMEWordKind.EndOfEvent
  else if dw.fill_word_found then VMEWordKind.FillWord
  else VMEWordKind.Unrecognized

/-- The full decode-then-classify pipeline for a single word. -/
def decode_kind (word : Nat) : VMEWordKind :=
  selected_kind (decode_mesytec_vme_word word)

/-! ### Bit-level helper lemmas -/

/-- On every bit that is set in the mask `m`, a word `w` with
`w &&& m = v` agrees with `v`. -/
lemma testBit_of_and_eq {w m v : Nat} (h : w &&& m = v) (i : Nat)
    (hm : m.testBit i = true) : w.testBit i = v.testBit i := by
  have h2 : (w &&& m).testBit i = v.testBit i := by rw [h]
  simpa [Nat.testBit_land, hm] using h2

/-- Positive bit extraction from a mask equation. -/
lemma testBit_true_of_and_eq {w m v : Nat} (h : w &&& m = v) (i : Nat)
    (hm : m.testBit i = true) (hv : v.testBit i = true) : w.testBit i = true :=
  (testBit_of_and_eq h i hm).trans hv

/-- Negative bit extraction from a mask equation. -/
lemma testBit_false_of_and_eq {w m v : Nat} (h : w &&& m = v) (i : Nat)
    (hm : m.testBit i = true) (hv : v.testBit i = false) : w.testBit i = false :=
  (testBit_of_and_eq h i hm).trans hv

/-- A bit cannot be both set and clear. -/
lemma bit_clash {w i : Nat} (hT : w.testBit i = true)
    (hF : w.testBit i = false) : False := by
  rw [hT] at hF
  exact Bool.noConfusion hF

/-- A boolean whose truth is contradictory is false. -/
lemma bool_eq_false_of_imp_false {b : Bool} (h : b = true → False) :
    b = false := by
  cases b
  · rfl
  · exact absurd rfl h

/-! ### Pairwise exclusivity of the mask equations -/

/-- A header word is never a data word: bit 30 is set for a header but
clear in both data patterns. -/
lemma header_excl_data {w : Nat} (h1 : w &&& 0xC0000000 = 0x40000000) :
    ¬(w &&& 0xF0000000 = 0x10000000 ∨ w &&& 0xFF800000 = 0x04000000) := by
  have b30 : w.testBit 30 = true :=
    testBit_true_of_and_eq h1 30 (by decide) (by decide)
  rintro (h2 | h2)
  · exact bit_clash b30 (testBit_false_of_and_eq h2 30 (by decide) (by decide))
  · exact bit_clash b30 (testBit_false_of_and_eq h2 30 (by decide) (by decide))

/-- A header word is never an extended timestamp: bit 30. -/
lemma header_excl_ext {w : Nat} (h1 : w &&& 0xC0000000 = 0x40000000) :
    ¬(w &&& 0xFF800000 = 0x04800000) := by
  have b30 : w.testBit 30 = true :=
    testBit_true_of_and_eq h1 30 (by decide) (by decide)
  intro h2
  exact bit_clash b30 (testBit_false_of_and_eq h2 30 (by decide) (by decide))

/-- A header word is never the fill word. -/
lemma header_excl_fill {w : Nat} (h1 : w &&& 0xC0000000 = 0x40000000) :
    ¬(w = 0) := by
  intro h2
  subst h2
  exact absurd h1 (by decide)

/-- A header word is never an end-of-event word: bit 31. -/
lemma header_excl_eoe {w : Nat} (h1 : w &&& 0xC0000000 = 0x40000000) :
    ¬(w &&& 0xC0000000 = 0xC0000000) := by
  have b31 : w.testBit 31 = false :=
    testBit_false_of_and_eq h1 31 (by decide) (by decide)
  intro h2
  exact bit_clash (testBit_true_of_and_eq h2 31 (by decide) (by decide)) b31

/-- A data word is never an extended timestamp: the MDPP pattern forces
bit 28 set while the timestamp pattern clears it, and the MxDC pattern
clears bit 23 while the timestamp pattern sets it. -/
lemma data_excl_ext {w : Nat}
    (h1 : w &&& 0xF0000000 = 0x10000000 ∨ w &&& 0xFF800000 = 0x04000000) :
    ¬(w &&& 0xFF800000 = 0x04800000) := by
  intro h2
  rcases h1 with h1 | h1
  · exact bit_clash (testBit_true_of_and_eq h1 28 (by decide) (by decide))
      (testBit_false_of_and_eq h2 28 (by decide) (by decide))
  · exact bit_clash (testBit_true_of_and_eq h2 23 (by decide) (by decide))
      (testBit_false_of_and_eq h1 23 (by decide) (by decide))

/-- A data word is never the fill word. -/
lemma data_excl_fill {w : Nat}
    (h1 : w &&& 0xF0000000 = 0x10000000 ∨ w &&& 0xFF800000 = 0x04000000) :
    ¬(w = 0) := by
  intro h2
  subst h2
  rcases h1 with h1 | h1
  · exact absurd h1 (by decide)
  · exact absurd h1 (by decide)

/-- A data word is never an end-of-event word: bit 30. -/
lemma data_excl_eoe {w : Nat}
    (h1 : w &&& 0xF0000000 = 0x10000000 ∨ w &&& 0xFF800000 = 0x04000000) :
    ¬(w &&& 0xC0000000 = 0xC0000000) := by
  intro h2
  have b30 : w.testBit 30 = true :=
    testBit_true_of_and_eq h2 30 (by decide) (by decide)
  rcases h1 with h1 | h1
  · exact bit_clash b30 (testBit_false_of_and_eq h1 30 (by decide) (by decide))
  · exact bit_clash b30 (testBit_false_of_and_eq h1 30 (by decide) (by decide))

/-- An extended timestamp is never the fill word. -/
lemma ext_excl_fill {w : Nat} (h1 : w &&& 0xFF800000 = 0x04800000) :
    ¬(w = 0) := by
  intro h2
  subst h2
  exact absurd h1 (by decide)

/-- An extended timestamp is never an end-of-event word: bit 30. -/
lemma ext_excl_eoe {w : Nat} (h1 : w &&& 0xFF800000 = 0x04800000) :
    ¬(w &&& 0xC0000000 = 0xC0000000) := by
  intro h2
  exact bit_clash (testBit_true_of_and_eq h2 30 (by decide) (by decide))
    (testBit_false_of_and_eq h1 30 (by decide) (by decide))

/-- The fill word is never an end-of-event word. -/
lemma fill_excl_eoe {w : Nat} (h1 : w = 0) :
    ¬(w &&& 0xC0000000 = 0xC0000000) := by
  subst h1
  intro h2
  exact absurd h2 (by decide)

/-! ### Exclusivity at the level of the boolean flags -/

/-- The five classification predicates are pairwise mutually exclusive. -/
lemma flags_disjoint (w : Nat) :
    (is_header w = true → is_data w = false) ∧
    (is_header w = true → is_ext_ts w = false) ∧
    (is_header w = true → is_fill w = false) ∧
    (is_header w = true → is_eoe w = false) ∧
    (is_data w = true → is_ext_ts w = false) ∧
    (is_data w = true → is_fill w = false) ∧
    (is_data w = true → is_eoe w = false) ∧
    (is_ext_ts w = true → is_fill w = false) ∧
    (is_ext_ts w = true → is_eoe w = false) ∧
    (is_fill w = true → is_eoe w = false) := by
  simp only [is_header, is_data, is_ext_ts, is_fill, is_eoe, Bool.or_eq_true,
    beq_iff_eq]
  refine ⟨?_, ?_, ?_, ?_, ?_, ?_, ?_, ?_, ?_, ?_⟩ <;> intro h1
  · exact bool_eq_false_of_imp_false fun h2 => by
      simp only [Bool.or_eq_true, beq_iff_eq] at h2
      exact header_excl_data h1 h2
  · exact bool_eq_false_of_imp_false fun h2 => by
      simp only [beq_iff_eq] at h2
      exact header_excl_ext h1 h2
  · exact bool_eq_false_of_imp_false fun h2 => by
      simp only [beq_iff_eq] at h2
      exact header_excl_fill h1 h2
  · exact bool_eq_false_of_imp_false fun h2 => by
      simp only [beq_iff_eq] at h2
      exact header_excl_eoe h1 h2
  · exact bool_eq_false_of_imp_false fun h2 => by
      simp only [beq_iff_eq] at h2
      exact data_excl_ext h1 h2
  · exact bool_eq_false_of_imp_false fun h2 => by
      simp only [beq_iff_eq] at h2
      exact data_excl_fill h1 h2
  · exact bool_eq_false_of_imp_false fun h2 => by
      simp only [beq_iff_eq] at h2
      exact data_excl_eoe h1 h2
  · exact bool_eq_false_of_imp_false fun h2 => by
      simp only [beq_iff_eq] at h2
      exact ext_excl_fill h1 h2
  · exact bool_eq_false_of_imp_false fun h2 => by
      simp only [beq_iff_eq] at h2
      exact ext_excl_eoe h1 h2
  · exact bool_eq_false_of_imp_false fun h2 => by
      simp only [beq_iff_eq] at h2
      exact fill_excl_eoe h1 h2

/-! ### Inversion lemmas for the selected kind -/

/-- The selected kind is `ModuleHeader` exactly when the header predicate
holds. -/
lemma kind_eq_header_iff (w : Nat) :
    decode_kind w = VMEWordKind.ModuleHeader ↔ is_header w = true := by
  cases h1 : is_header w <;> cases h2 : is_data w <;> cases h3 : is_ext_ts w <;>
    cases h4 : is_fill w <;> cases h5 : is_eoe w <;>
      simp_all [decode_kind, selected_kind, decode_mesytec_vme_word]

/-- The selected kind is `DataWord` exactly when the data predicate holds
and the header predicate does not. -/
lemma kind_eq_data_iff (w : Nat) :
    decode_kind w = VMEWordKind.DataWord ↔
      is_header w = false ∧ is_data w = true := by
  cases h1 : is_header w <;> cases h2 : is_data w <;> cases h3 : is_ext_ts w <;>
    cases h4 : is_fill w <;> cases h5 : is_eoe w <;>
      simp_all [decode_kind, selected_kind, decode_mesytec_vme_word]

/-- The selected kind is `ExtendedTimestamp` exactly when the extended
timestamp predicate holds and the two earlier predicates do not. -/
lemma kind_eq_ext_iff (w : Nat) :
    decode_kind w = VMEWordKind.ExtendedTimestamp ↔
      is_header w = false ∧ is_data w = false ∧ is_ext_ts w = true := by
  cases h1 : is_header w <;> cases h2 : is_data w <;> cases h3 : is_ext_ts w <;>
    cases h4 : is_fill w <;> cases h5 : is_eoe w <;>
      simp_all [decode_kind, selected_kind, decode_mesytec_vme_word]

/-- The selected kind is `EndOfEvent` exactly when the end-of-event
predicate holds and the three earlier predicates do not. -/
lemma kind_eq_eoe_iff (w : Nat) :
    decode_kind w = VMEWordKind.EndOfEvent ↔
      is_header w = false ∧ is_data w = false ∧ is_ext_ts w = false ∧
        is_eoe w = true := by
  cases h1 : is_header w <;> cases h2 : is_data w <;> cases h3 : is_ext_ts w <;>
    cases h4 : is_fill w <;> cases h5 : is_eoe w <;>
      simp_all [decode_kind, selected_kind, decode_mesytec_vme_word]

/-- The selected kind is `FillWord` exactly when the fill predicate holds
and the four earlier predicates do not. -/
lemma kind_eq_fill_iff (w : Nat) :
    decode_kind w = VMEWordKind.FillWord ↔
      is_header w = false ∧ is_data w = false ∧ is_ext_ts w = false ∧
        is_eoe w = false ∧ is_fill w = true := by
  cases h1 : is_header w <;> cases h2 : is_data w <;> cases h3 : is_ext_ts w <;>
    cases h4 : is_fill w <;> cases h5 : is_eoe w <;>
      simp_all [decode_kind, selected_kind, decode_mesytec_vme_word]

/-- The selected kind is `Unrecognized` exactly when none of the five
predicates holds. -/
lemma kind_eq_unrecognized_iff (w : Nat) :
    decode_kind w = VMEWordKind.Unrecognized ↔
      is_header w = false ∧ is_data w = false ∧ is_ext_ts w = false ∧
        is_fill w = false ∧ is_eoe w = false := by
  cases h1 : is_header w <;> cases h2 : is_data w <;> cases h3 : is_ext_ts w <;>
    cases h4 : is_fill w <;> cases h5 : is_eoe w <;>
      simp_all [decode_kind, selected_kind, decode_mesytec_vme_word]

/-! ### Arithmetic helpers for the field extractions -/

/-- A masked-then-divided extraction is bounded by the extraction applied
to the mask itself. -/
lemma extract_lt (w m k q : Nat) (h : m / k < q) : (w &&& m) / k < q :=
  lt_of_le_of_lt (Nat.div_le_div_right Nat.and_le_right) h

/-- When the extraction fits the target width, the narrowing `%` is the
identity. -/
lemma extract_mod_eq (w m k q : Nat) (h : m / k < q) :
    ((w &&& m) / k) % q = (w &&& m) / k :=
  Nat.mod_eq_of_lt (extract_lt w m k q h)

/-- A masked value that fits the target width is unchanged by the
narrowing `%`. -/
lemma mask_mod_eq (w m q : Nat) (h : m < q) : (w &&& m) % q = w &&& m :=
  Nat.mod_eq_of_lt (lt_of_le_of_lt Nat.and_le_right h)

/-! ### Projection lemmas for the decoded record -/

/-- The raw word is stored unchanged. -/
lemma decode_word_eq (w : Nat) : (decode_mesytec_vme_word w).word = w := rfl

/-- The stored header flag is the header predicate. -/
lemma decode_header_found (w : Nat) :
    (decode_mesytec_vme_word w).header_found = is_header w := rfl

/-- The stored data flag is the data predicate. -/
lemma decode_data_found (w : Nat) :
    (decode_mesytec_vme_word w).data_found = is_data w := rfl

/-- The stored extended-timestamp flag is the timestamp predicate. -/
lemma decode_extended_ts_found (w : Nat) :
    (decode_mesytec_vme_word w).extended_ts_found = is_ext_ts w := rfl

/-- The stored fill flag is the fill predicate. -/
lemma decode_fill_word_found (w : Nat) :
    (decode_mesytec_vme_word w).fill_word_found = is_fill w := rfl

/-- The stored end-of-event flag is the end-of-event predicate. -/
lemma decode_eoe_found (w : Nat) :
    (decode_mesytec_vme_word w).eoe_found = is_eoe w := rfl

/-- Header fields when the header predicate matched. -/
lemma decode_data_length_of_header {w : Nat} (hh : is_header w = true) :
    (decode_mesytec_vme_word w).data_length = (w &&& 0x000003FF) % 2 ^ 16 := by
  simp [decode_mesytec_vme_word, hh]

/-- Header fields stay zero when the header predicate did not match. -/
lemma decode_data_length_of_not_header {w : Nat} (hh : is_header w = false) :
    (decode_mesytec_vme_word w).data_length = 0 := by
  simp [decode_mesytec_vme_word, hh]

/-- Module id when the header predicate matched. -/
lemma decode_module_id_of_header {w : Nat} (hh : is_header w = true) :
    (decode_mesytec_vme_word w).module_id =
      ((w &&& 0x00FF0000) / 0x10000) % 2 ^ 8 := by
  simp [decode_mesytec_vme_word, hh]

/-- Module id stays zero when the header predicate did not match. -/
lemma decode_module_id_of_not_header {w : Nat} (hh : is_header w = false) :
    (decode_mesytec_vme_word w).module_id = 0 := by
  simp [decode_mesytec_vme_word, hh]

/-- Module setting when the header predicate matched. -/
lemma decode_module_setting_of_header {w : Nat} (hh : is_header w = true) :
    (decode_mesytec_vme_word w).module_setting =
      ((w &&& 0x0000FC00) / 0x400) % 2 ^ 8 := by
  simp [decode_mesytec_vme_word, hh]

/-- Module setting stays zero when the header predicate did not match. -/
lemma decode_module_setting_of_not_header {w : Nat} (hh : is_header w = false) :
    (decode_mesytec_vme_word w).module_setting = 0 := by
  simp [decode_mesytec_vme_word, hh]

/-- Channel address when the data predicate matched. -/
lemma decode_channel_address_of_data {w : Nat} (hd : is_data w = true) :
    (decode_mesytec_vme_word w).channel_address =
      ((w &&& 0x003F0000) / 0x0010000) % 2 ^ 8 := by
  simp [decode_mesytec_vme_word, hd]

/-- Channel address stays zero when the data predicate did not match. -/
lemma decode_channel_address_of_not_data {w : Nat} (hd : is_data w = false) :
    (decode_mesytec_vme_word w).channel_address = 0 := by
  simp [decode_mesytec_vme_word, hd]

/-- MDPP flags when the data predicate matched: the quotient by `2 ^ 18`
is truncated to the `uint8_t` field. -/
lemma decode_mdpp_flags_of_data {w : Nat} (hd : is_data w = true) :
    (decode_mesytec_vme_word w).mdpp_flags =
      ((w &&& 0x0FC00000) / 0x0040000) % 2 ^ 8 := by
  simp [decode_mesytec_vme_word, hd]

/-- MDPP flags stay zero when the data predicate did not match. -/
lemma decode_mdpp_flags_of_not_data {w : Nat} (hd : is_data w = false) :
    (decode_mesytec_vme_word w).mdpp_flags = 0 := by
  simp [decode_mesytec_vme_word, hd]

/-- High timestamp when the extended-timestamp predicate matched. -/
lemma decode_high_stamp_of_ext {w : Nat} (he : is_ext_ts w = true) :
    (decode_mesytec_vme_word w).high_stamp = (w &&& 0x0000FFFF) % 2 ^ 16 := by
  simp [decode_mesytec_vme_word, he]

/-- High timestamp stays zero when the timestamp predicate did not match. -/
lemma decode_high_stamp_of_not_ext {w : Nat} (he : is_ext_ts w = false) :
    (decode_mesytec_vme_word w).high_stamp = 0 := by
  simp [decode_mesytec_vme_word, he]

/-- Low timestamp when the end-of-event predicate matched. -/
lemma decode_low_stamp_of_eoe {w : Nat} (he : is_eoe w = true) :
    (decode_mesytec_vme_word w).low_stamp = (w &&& 0x3FFFFFFF) % 2 ^ 32 := by
  simp [decode_mesytec_vme_word, he]

/-- Low timestamp stays zero when the end-of-event predicate did not
match. -/
lemma decode_low_stamp_of_not_eoe {w : Nat} (he : is_eoe w = false) :
    (decode_mesytec_vme_word w).low_stamp = 0 := by
  simp [decode_mesytec_vme_word, he]

/-! ### Claim theorems -/

/-- C1: for every 32-bit input word, the decoded kind is selected by
first-match over the five classification predicates in the fixed order
header, data, extended-timestamp, end-of-event, fill, else Unrecognized,
with the predicates given by the stated mask equations; in particular a
word matching both the header pattern and any other predicate always
yields `ModuleHeader`, and analogously down the priority chain. -/
theorem C1_first_match_priority (w : Nat) (h : w < 2 ^ 32) :
    decode_kind w =
      if w &&& 0xC0000000 = 0x40000000 then VMEWordKind.ModuleHeader
      else if w &&& 0xF0000000 = 0x10000000 ∨ w &&& 0xFF800000 = 0x04000000
        then VMEWordKind.DataWord
      else if w &&& 0xFF800000 = 0x04800000 then VMEWordKind.ExtendedTimestamp
      else if w &&& 0xC0000000 = 0xC0000000 then VMEWordKind.EndOfEvent
      else if w = 0 then VMEWordKind.FillWord
      else VMEWordKind.Unrecognized := by
  by_cases hH : w &&& 0xC0000000 = 0x40000000
  · rw [if_pos hH]
    refine (kind_eq_header_iff w).mpr ?_
    simp only [is_header, beq_iff_eq]
    exact hH
  · rw [if_neg hH]
    have hHf : is_header w = false := by
      simp only [is_header, beq_eq_false_iff_ne, ne_eq]
      exact hH
    by_cases hD : w &&& 0xF0000000 = 0x10000000 ∨ w &&& 0xFF800000 = 0x04000000
    · rw [if_pos hD]
      refine (kind_eq_data_iff w).mpr ⟨hHf, ?_⟩
      simp only [is_data, Bool.or_eq_true, beq_iff_eq]
      exact hD
    · rw [if_neg hD]
      have hDf : is_data w = false := by
        simp only [is_data, Bool.or_eq_false_iff, beq_eq_false_iff_ne, ne_eq]
        exact not_or.mp hD
      by_cases hE : w &&& 0xFF800000 = 0x04800000
      · rw [if_pos hE]
        refine (kind_eq_ext_iff w).mpr ⟨hHf, hDf, ?_⟩
        simp only [is_ext_ts, beq_iff_eq]
        exact hE
      · rw [if_neg hE]
        have hEf : is_ext_ts w = false := by
          simp only [is_ext_ts, beq_eq_false_iff_ne, ne_eq]
          exact hE
        by_cases hO : w &&& 0xC0000000 = 0xC0000000
        · rw [if_pos hO]
          refine (kind_eq_eoe_iff w).mpr ⟨hHf, hDf, hEf, ?_⟩
          simp only [is_eoe, beq_iff_eq]
          exact hO
        · rw [if_neg hO]
          have hOf : is_eoe w = false := by
            simp only [is_eoe, beq_eq_false_iff_ne, ne_eq]
            exact hO
          by_cases hF : w = 0
          · rw [if_pos hF]
            refine (kind_eq_fill_iff w).mpr ⟨hHf, hDf, hEf, hOf, ?_⟩
            simp only [is_fill, beq_iff_eq]
            exact hF
          · rw [if_neg hF]
            have hFf : is_fill w = false := by
              simp only [is_fill, beq_eq_false_iff_ne, ne_eq]
              exact hF
            exact (kind_eq_unrecognized_iff w).mpr ⟨hHf, hDf, hEf, hFf, hOf⟩

/-- Witness for C1 at the concrete header word `0x40010c07`. -/
theorem C1_first_match_priority_witness :
    0x40010c07 < 2 ^ 32 ∧
    decode_kind 0x40010c07 =
      (if 0x40010c07 &&& 0xC0000000 = 0x40000000 then VMEWordKind.ModuleHeader
      else if 0x40010c07 &&& 0xF0000000 = 0x10000000 ∨
          0x40010c07 &&& 0xFF800000 = 0x04000000 then VMEWordKind.DataWord
      else if 0x40010c07 &&& 0xFF800000 = 0x04800000 then
        VMEWordKind.ExtendedTimestamp
      else if 0x40010c07 &&& 0xC0000000 = 0xC0000000 then VMEWordKind.EndOfEvent
      else if 0x40010c07 = 0 then VMEWordKind.FillWord
      else VMEWordKind.Unrecognized) :=
  ⟨by decide, C1_first_match_priority 0x40010c07 (by decide)⟩

/-- C5: each of the eight concrete inputs of the spec decodes to the
stated kind and field values. -/
theorem C5_concrete_scenarios :
    (decode_kind 0x40010c07 = VMEWordKind.ModuleHeader ∧
      (decode_mesytec_vme_word 0x40010c07).module_id = 0x01 ∧
      (decode_mesytec_vme_word 0x40010c07).module_setting = 0x3 ∧
      (decode_mesytec_vme_word 0x40010c07).data_length = 7) ∧
    (decode_kind 0x10100868 = VMEWordKind.DataWord ∧
      (decode_mesytec_vme_word 0x10100868).channel_address = 16 ∧
      (decode_mesytec_vme_word 0x10100868).mdpp_flags = 0) ∧
    (decode_kind 0x1000036e = VMEWordKind.DataWord ∧
      (decode_mesytec_vme_word 0x1000036e).channel_address = 0 ∧
      (decode_mesytec_vme_word 0x1000036e).mdpp_flags = 0) ∧
    (decode_kind 0x103002aa = VMEWordKind.DataWord ∧
      (decode_mesytec_vme_word 0x103002aa).channel_address = 48 ∧
      (decode_mesytec_vme_word 0x103002aa).mdpp_flags = 0) ∧
    (decode_kind 0xc18d01bd = VMEWordKind.EndOfEvent ∧
      (decode_mesytec_vme_word 0xc18d01bd).low_stamp = 26018237) ∧
    decode_kind 0x00000000 = VMEWordKind.FillWord ∧
    (decode_kind 0x04800057 = VMEWordKind.ExtendedTimestamp ∧
      (decode_mesytec_vme_word 0x04800057).high_stamp = 0x0057) ∧
    decode_kind 0x20000000 = VMEWordKind.Unrecognized := by
  decide

/-- C10: the decoded record preserves the raw input word unchanged,
whatever kind is selected. -/
theorem C10_raw_word_preserved (w : Nat) (h : w < 2 ^ 32) :
    (decode_mesytec_vme_word w).word = w := rfl

/-- Witness for C10 at the concrete end-of-event word `0xc18d01bd`. -/
theorem C10_raw_word_preserved_witness :
    0xc18d01bd < 2 ^ 32 ∧ (decode_mesytec_vme_word 0xc18d01bd).word = 0xc18d01bd :=
  ⟨by decide, C10_raw_word_preserved 0xc18d01bd (by decide)⟩

/-- C2 counterexample: for the data word `0x14000000` (bit 26 set) the
stored `mdpp_flags` is `0`, while `(word & 0x0FC00000) >> 18 = 256`; the
`uint8_t` store truncates the quotient modulo 256. -/
theorem C2_counterexample :
    decode_kind 0x14000000 = VMEWordKind.DataWord ∧
    (decode_mesytec_vme_word 0x14000000).mdpp_flags ≠
      (0x14000000 &&& 0x0FC00000) >>> 18 := by
  decide

/-- C2 (amended): for every 32-bit word whose selected kind is `DataWord`,
the `mdpp_flags` field equals `((word & 0x0FC00000) >> 18) mod 2 ^ 8`,
i.e. the stated shift expression truncated by the `uint8_t` store. -/
theorem C2_mdpp_flags_shift_truncated (w : Nat) (h : w < 2 ^ 32)
    (hk : decode_kind w = VMEWordKind.DataWord) :
    (decode_mesytec_vme_word w).mdpp_flags =
      ((w &&& 0x0FC00000) >>> 18) % 2 ^ 8 := by
  obtain ⟨-, hd⟩ := (kind_eq_data_iff w).mp hk
  rw [decode_mdpp_flags_of_data hd, Nat.shiftRight_eq_div_pow]

/-- Witness for the amended C2 at the data word `0x10100868`. -/
theorem C2_mdpp_flags_shift_truncated_witness :
    0x10100868 < 2 ^ 32 ∧
    decode_kind 0x10100868 = VMEWordKind.DataWord ∧
    (decode_mesytec_vme_word 0x10100868).mdpp_flags =
      ((0x10100868 &&& 0x0FC00000) >>> 18) % 2 ^ 8 :=
  ⟨by decide, by decide,
    C2_mdpp_flags_shift_truncated 0x10100868 (by decide) (by decide)⟩

/-- C3 counterexample: `0x11000000` is selected as a data word and its
stored `mdpp_flags` is `64`, which does not fit in 6 bits. -/
theorem C3_counterexample :
    decode_kind 0x11000000 = VMEWordKind.DataWord ∧
    ¬((decode_mesytec_vme_word 0x11000000).mdpp_flags < 64) := by
  decide

/-- C3 (amended): for every 32-bit word whose selected kind is `DataWord`,
`channel_address` fits in 6 bits, while `mdpp_flags` only fits in 8 bits
(the `uint8_t` width; the extraction shifts the 6-bit mask by 18 rather
than 22, so values up to 240 occur). -/
theorem C3_data_field_bounds (w : Nat) (h : w < 2 ^ 32)
    (hk : decode_kind w = VMEWordKind.DataWord) :
    (decode_mesytec_vme_word w).channel_address < 64 ∧
    (decode_mesytec_vme_word w).mdpp_flags < 256 := by
  obtain ⟨-, hd⟩ := (kind_eq_data_iff w).mp hk
  constructor
  · rw [decode_channel_address_of_data hd]
    exact lt_of_le_of_lt (Nat.mod_le _ _)
      (extract_lt w 0x003F0000 0x0010000 64 (by norm_num))
  · rw [decode_mdpp_flags_of_data hd]
    exact lt_of_lt_of_le (Nat.mod_lt _ (by norm_num)) (by norm_num)

/-- Witness for the amended C3 at the data word `0x103002aa`. -/
theorem C3_data_field_bounds_witness :
    0x103002aa < 2 ^ 32 ∧
    decode_kind 0x103002aa = VMEWordKind.DataWord ∧
    ((decode_mesytec_vme_word 0x103002aa).channel_address < 64 ∧
      (decode_mesytec_vme_word 0x103002aa).mdpp_flags < 256) :=
  ⟨by decide, by decide,
    C3_data_field_bounds 0x103002aa (by decide) (by decide)⟩

/-- C4: for every 32-bit word, the fields of the selected kind other than
`mdpp_flags` are extracted exactly per the mask/shift table and each fits
its declared width without truncation. -/
theorem C4_field_extraction_exact (w : Nat) (h : w < 2 ^ 32) :
    (decode_kind w = VMEWordKind.ModuleHeader →
      (decode_mesytec_vme_word w).data_length = w &&& 0x000003FF ∧
      (decode_mesytec_vme_word w).data_length < 2 ^ 10 ∧
      (decode_mesytec_vme_word w).module_id = (w &&& 0x00FF0000) >>> 16 ∧
      (decode_mesytec_vme_word w).module_id < 2 ^ 8 ∧
      (decode_mesytec_vme_word w).module_setting = (w &&& 0x0000FC00) >>> 10 ∧
      (decode_mesytec_vme_word w).module_setting < 2 ^ 6) ∧
    (decode_kind w = VMEWordKind.DataWord →
      (decode_mesytec_vme_word w).channel_address = (w &&& 0x003F0000) >>> 16 ∧
      (decode_mesytec_vme_word w).channel_address < 2 ^ 6) ∧
    (decode_kind w = VMEWordKind.ExtendedTimestamp →
      (decode_mesytec_vme_word w).high_stamp = w &&& 0x0000FFFF ∧
      (decode_mesytec_vme_word w).high_stamp < 2 ^ 16) ∧
    (decode_kind w = VMEWordKind.EndOfEvent →
      (decode_mesytec_vme_word w).low_stamp = w &&& 0x3FFFFFFF ∧
      (decode_mesytec_vme_word w).low_stamp < 2 ^ 30) := by
  refine ⟨?_, ?_, ?_, ?_⟩
  · intro hk
    have hh := (kind_eq_header_iff w).mp hk
    refine ⟨?_, ?_, ?_, ?_, ?_, ?_⟩
    · rw [decode_data_length_of_header hh]
      exact mask_mod_eq w 0x000003FF (2 ^ 16) (by norm_num)
    · rw [decode_data_length_of_header hh,
        mask_mod_eq w 0x000003FF (2 ^ 16) (by norm_num)]
      exact lt_of_le_of_lt Nat.and_le_right (by norm_num)
    · rw [decode_module_id_of_header hh,
        extract_mod_eq w 0x00FF0000 0x10000 (2 ^ 8) (by norm_num),
        Nat.shiftRight_eq_div_pow]
    · rw [decode_module_id_of_header hh,
        extract_mod_eq w 0x00FF0000 0x10000 (2 ^ 8) (by norm_num)]
      exact extract_lt w 0x00FF0000 0x10000 (2 ^ 8) (by norm_num)
    · rw [decode_module_setting_of_header hh,
        extract_mod_eq w 0x0000FC00 0x400 (2 ^ 8) (by norm_num),
        Nat.shiftRight_eq_div_pow]
    · rw [decode_module_setting_of_header hh,
        extract_mod_eq w 0x0000FC00 0x400 (2 ^ 8) (by norm_num)]
      exact extract_lt w 0x0000FC00 0x400 (2 ^ 6) (by norm_num)
  · intro hk
    obtain ⟨-, hd⟩ := (kind_eq_data_iff w).mp hk
    constructor
    · rw [decode_channel_address_of_data hd,
        extract_mod_eq w 0x003F0000 0x0010000 (2 ^ 8) (by norm_num),
        Nat.shiftRight_eq_div_pow]
    · rw [decode_channel_address_of_data hd,
        extract_mod_eq w 0x003F0000 0x0010000 (2 ^ 8) (by norm_num)]
      exact extract_lt w 0x003F0000 0x0010000 (2 ^ 6) (by norm_num)
  · intro hk
    obtain ⟨-, -, he⟩ := (kind_eq_ext_iff w).mp hk
    constructor
    · rw [decode_high_stamp_of_ext he]
      exact mask_mod_eq w 0x0000FFFF (2 ^ 16) (by norm_num)
    · rw [decode_high_stamp_of_ext he,
        mask_mod_eq w 0x0000FFFF (2 ^ 16) (by norm_num)]
      exact lt_of_le_of_lt Nat.and_le_right (by norm_num)
  · intro hk
    obtain ⟨-, -, -, he⟩ := (kind_eq_eoe_iff w).mp hk
    constructor
    · rw [decode_low_stamp_of_eoe he]
      exact mask_mod_eq w 0x3FFFFFFF (2 ^ 32) (by norm_num)
    · rw [decode_low_stamp_of_eoe he,
        mask_mod_eq w 0x3FFFFFFF (2 ^ 32) (by norm_num)]
      exact lt_of_le_of_lt Nat.and_le_right (by norm_num)

/-- Witness for C4 at the concrete header word `0x40010c07`. -/
theorem C4_field_extraction_exact_witness :
    0x40010c07 < 2 ^ 32 ∧
    (decode_kind 0x40010c07 = VMEWordKind.ModuleHeader →
      (decode_mesytec_vme_word 0x40010c07).data_length =
        0x40010c07 &&& 0x000003FF ∧
      (decode_mesytec_vme_word 0x40010c07).data_length < 2 ^ 10 ∧
      (decode_mesytec_vme_word 0x40010c07).module_id =
        (0x40010c07 &&& 0x00FF0000) >>> 16 ∧
      (decode_mesytec_vme_word 0x40010c07).module_id < 2 ^ 8 ∧
      (decode_mesytec_vme_word 0x40010c07).module_setting =
        (0x40010c07 &&& 0x0000FC00) >>> 10 ∧
      (decode_mesytec_vme_word 0x40010c07).module_setting < 2 ^ 6) ∧
    (decode_kind 0x40010c07 = VMEWordKind.DataWord →
      (decode_mesytec_vme_word 0x40010c07).channel_address =
        (0x40010c07 &&& 0x003F0000) >>> 16 ∧
      (decode_mesytec_vme_word 0x40010c07).channel_address < 2 ^ 6) ∧
    (decode_kind 0x40010c07 = VMEWordKind.ExtendedTimestamp →
      (decode_mesytec_vme_word 0x40010c07).high_stamp =
        0x40010c07 &&& 0x0000FFFF ∧
      (decode_mesytec_vme_word 0x40010c07).high_stamp < 2 ^ 16) ∧
    (decode_kind 0x40010c07 = VMEWordKind.EndOfEvent →
      (decode_mesytec_vme_word 0x40010c07).low_stamp =
        0x40010c07 &&& 0x3FFFFFFF ∧
      (decode_mesytec_vme_word 0x40010c07).low_stamp < 2 ^ 30) :=
  ⟨by decide, C4_field_extraction_exact 0x40010c07 (by decide)⟩

/-- C6 counterexample: no 32-bit word satisfies two of the five
classification predicates at once, refuting the claimed overlap. -/
theorem C6_counterexample :
    ¬ ∃ w, w < 2 ^ 32 ∧
      ((is_header w = true ∧ is_data w = true) ∨
       (is_header w = true ∧ is_ext_ts w = true) ∨
       (is_header w = true ∧ is_fill w = true) ∨
       (is_header w = true ∧ is_eoe w = true) ∨
       (is_data w = true ∧ is_ext_ts w = true) ∨
       (is_data w = true ∧ is_fill w = true) ∨
       (is_data w = true ∧ is_eoe w = true) ∨
       (is_ext_ts w = true ∧ is_fill w = true) ∨
       (is_ext_ts w = true ∧ is_eoe w = true) ∨
       (is_fill w = true ∧ is_eoe w = true)) := by
  rintro ⟨w, -, hpair⟩
  obtain ⟨d1, d2, d3, d4, d5, d6, d7, d8, d9, d10⟩ := flags_disjoint w
  rcases hpair with ⟨ha, hb⟩ | ⟨ha, hb⟩ | ⟨ha, hb⟩ | ⟨ha, hb⟩ | ⟨ha, hb⟩ |
    ⟨ha, hb⟩ | ⟨ha, hb⟩ | ⟨ha, hb⟩ | ⟨ha, hb⟩ | ⟨ha, hb⟩
  · rw [d1 ha] at hb; exact Bool.noConfusion hb
  · rw [d2 ha] at hb; exact Bool.noConfusion hb
  · rw [d3 ha] at hb; exact Bool.noConfusion hb
  · rw [d4 ha] at hb; exact Bool.noConfusion hb
  · rw [d5 ha] at hb; exact Bool.noConfusion hb
  · rw [d6 ha] at hb; exact Bool.noConfusion hb
  · rw [d7 ha] at hb; exact Bool.noConfusion hb
  · rw [d8 ha] at hb; exact Bool.noConfusion hb
  · rw [d9 ha] at hb; exact Bool.noConfusion hb
  · rw [d10 ha] at hb; exact Bool.noConfusion hb

/-- C6 (amended): the five classification predicates do not overlap: for
every 32-bit word, no two of them hold simultaneously. -/
theorem C6_predicates_never_overlap (w : Nat) (h : w < 2 ^ 32) :
    ¬(is_header w = true ∧ is_data w = true) ∧
    ¬(is_header w = true ∧ is_ext_ts w = true) ∧
    ¬(is_header w = true ∧ is_fill w = true) ∧
    ¬(is_header w = true ∧ is_eoe w = true) ∧
    ¬(is_data w = true ∧ is_ext_ts w = true) ∧
    ¬(is_data w = true ∧ is_fill w = true) ∧
    ¬(is_data w = true ∧ is_eoe w = true) ∧
    ¬(is_ext_ts w = true ∧ is_fill w = true) ∧
    ¬(is_ext_ts w = true ∧ is_eoe w = true) ∧
    ¬(is_fill w = true ∧ is_eoe w = true) := by
  obtain ⟨d1, d2, d3, d4, d5, d6, d7, d8, d9, d10⟩ := flags_disjoint w
  refine ⟨?_, ?_, ?_, ?_, ?_, ?_, ?_, ?_, ?_, ?_⟩ <;> rintro ⟨ha, hb⟩
  · rw [d1 ha] at hb; exact Bool.noConfusion hb
  · rw [d2 ha] at hb; exact Bool.noConfusion hb
  · rw [d3 ha] at hb; exact Bool.noConfusion hb
  · rw [d4 ha] at hb; exact Bool.noConfusion hb
  · rw [d5 ha] at hb; exact Bool.noConfusion hb
  · rw [d6 ha] at hb; exact Bool.noConfusion hb
  · rw [d7 ha] at hb; exact Bool.noConfusion hb
  · rw [d8 ha] at hb; exact Bool.noConfusion hb
  · rw [d9 ha] at hb; exact Bool.noConfusion hb
  · rw [d10 ha] at hb; exact Bool.noConfusion hb

/-- Witness for the amended C6 at the word `0x20000000`. -/
theorem C6_predicates_never_overlap_witness :
    0x20000000 < 2 ^ 32 ∧
    (¬(is_header 0x20000000 = true ∧ is_data 0x20000000 = true) ∧
     ¬(is_header 0x20000000 = true ∧ is_ext_ts 0x20000000 = true) ∧
     ¬(is_header 0x20000000 = true ∧ is_fill 0x20000000 = true) ∧
     ¬(is_header 0x20000000 = true ∧ is_eoe 0x20000000 = true) ∧
     ¬(is_data 0x20000000 = true ∧ is_ext_ts 0x20000000 = true) ∧
     ¬(is_data 0x20000000 = true ∧ is_fill 0x20000000 = true) ∧
     ¬(is_data 0x20000000 = true ∧ is_eoe 0x20000000 = true) ∧
     ¬(is_ext_ts 0x20000000 = true ∧ is_fill 0x20000000 = true) ∧
     ¬(is_ext_ts 0x20000000 = true ∧ is_eoe 0x20000000 = true) ∧
     ¬(is_fill 0x20000000 = true ∧ is_eoe 0x20000000 = true)) :=
  ⟨by decide, C6_predicates_never_overlap 0x20000000 (by decide)⟩

/-- C7: the five classification predicates are pairwise mutually
exclusive, so every decoded record has at most one found-flag set. -/
theorem C7_at_most_one_flag (w : Nat) (h : w < 2 ^ 32) :
    ((decode_mesytec_vme_word w).header_found = true →
      (decode_mesytec_vme_word w).data_found = false ∧
      (decode_mesytec_vme_word w).extended_ts_found = false ∧
      (decode_mesytec_vme_word w).fill_word_found = false ∧
      (decode_mesytec_vme_word w).eoe_found = false) ∧
    ((decode_mesytec_vme_word w).data_found = true →
      (decode_mesytec_vme_word w).extended_ts_found = false ∧
      (decode_mesytec_vme_word w).fill_word_found = false ∧
      (decode_mesytec_vme_word w).eoe_found = false) ∧
    ((decode_mesytec_vme_word w).extended_ts_found = true →
      (decode_mesytec_vme_word w).fill_word_found = false ∧
      (decode_mesytec_vme_word w).eoe_found = false) ∧
    ((decode_mesytec_vme_word w).fill_word_found = true →
      (decode_mesytec_vme_word w).eoe_found = false) := by
  obtain ⟨d1, d2, d3, d4, d5, d6, d7, d8, d9, d10⟩ := flags_disjoint w
  exact ⟨fun hh => ⟨d1 hh, d2 hh, d3 hh, d4 hh⟩,
    fun hd => ⟨d5 hd, d6 hd, d7 hd⟩,
    fun he => ⟨d8 he, d9 he⟩,
    fun hf => d10 hf⟩

/-- Witness for C7 at the concrete data word `0x10100868`. -/
theorem C7_at_most_one_flag_witness :
    0x10100868 < 2 ^ 32 ∧
    (((decode_mesytec_vme_word 0x10100868).header_found = true →
      (decode_mesytec_vme_word 0x10100868).data_found = false ∧
      (decode_mesytec_vme_word 0x10100868).extended_ts_found = false ∧
      (decode_mesytec_vme_word 0x10100868).fill_word_found = false ∧
      (decode_mesytec_vme_word 0x10100868).eoe_found = false) ∧
    ((decode_mesytec_vme_word 0x10100868).data_found = true →
      (decode_mesytec_vme_word 0x10100868).extended_ts_found = false ∧
      (decode_mesytec_vme_word 0x10100868).fill_word_found = false ∧
      (decode_mesytec_vme_word 0x10100868).eoe_found = false) ∧
    ((decode_mesytec_vme_word 0x10100868).extended_ts_found = true →
      (decode_mesytec_vme_word 0x10100868).fill_word_found = false ∧
      (decode_mesytec_vme_word 0x10100868).eoe_found = false) ∧
    ((decode_mesytec_vme_word 0x10100868).fill_word_found = true →
      (decode_mesytec_vme_word 0x10100868).eoe_found = false)) :=
  ⟨by decide, C7_at_most_one_flag 0x10100868 (by decide)⟩

/-- C8: decoding is total: every 32-bit input yields exactly one kind, and
an input matching none of the five patterns is classified `Unrecognized`
rather than being an error. -/
theorem C8_decode_total (w : Nat) (h : w < 2 ^ 32) :
    (∃! k : VMEWordKind, decode_kind w = k) ∧
    (is_header w = false ∧ is_data w = false ∧ is_ext_ts w = false ∧
        is_fill w = false ∧ is_eoe w = false →
      decode_kind w = VMEWordKind.Unrecognized) := by
  refine ⟨⟨decode_kind w, rfl, fun y hy => hy.symm⟩, ?_⟩
  rintro ⟨h1, h2, h3, h4, h5⟩
  exact (kind_eq_unrecognized_iff w).mpr ⟨h1, h2, h3, h4, h5⟩

/-- Witness for C8 at the unrecognized word `0x20000000`. -/
theorem C8_decode_total_witness :
    0x20000000 < 2 ^ 32 ∧
    ((∃! k : VMEWordKind, decode_kind 0x20000000 = k) ∧
    (is_header 0x20000000 = false ∧ is_data 0x20000000 = false ∧
        is_ext_ts 0x20000000 = false ∧ is_fill 0x20000000 = false ∧
        is_eoe 0x20000000 = false →
      decode_kind 0x20000000 = VMEWordKind.Unrecognized)) :=
  ⟨by decide, C8_decode_total 0x20000000 (by decide)⟩

/-- C9: fields belonging to non-selected kinds are never assigned and
remain at their zero initialization. -/
theorem C9_field_isolation (w : Nat) (h : w < 2 ^ 32) :
    (decode_kind w = VMEWordKind.ModuleHeader →
      (decode_mesytec_vme_word w).channel_address = 0 ∧
      (decode_mesytec_vme_word w).mdpp_flags = 0 ∧
      (decode_mesytec_vme_word w).high_stamp = 0 ∧
      (decode_mesytec_vme_word w).low_stamp = 0) ∧
    (decode_kind w = VMEWordKind.DataWord →
      (decode_mesytec_vme_word w).data_length = 0 ∧
      (decode_mesytec_vme_word w).module_id = 0 ∧
      (decode_mesytec_vme_word w).module_setting = 0 ∧
      (decode_mesytec_vme_word w).high_stamp = 0 ∧
      (decode_mesytec_vme_word w).low_stamp = 0) ∧
    (decode_kind w = VMEWordKind.ExtendedTimestamp →
      (decode_mesytec_vme_word w).data_length = 0 ∧
      (decode_mesytec_vme_word w).module_id = 0 ∧
      (decode_mesytec_vme_word w).module_setting = 0 ∧
      (decode_mesytec_vme_word w).channel_address = 0 ∧
      (decode_mesytec_vme_word w).mdpp_flags = 0 ∧
      (decode_mesytec_vme_word w).low_stamp = 0) ∧
    (decode_kind w = VMEWordKind.EndOfEvent →
      (decode_mesytec_vme_word w).data_length = 0 ∧
      (decode_mesytec_vme_word w).module_id = 0 ∧
      (decode_mesytec_vme_word w).module_setting = 0 ∧
      (decode_mesytec_vme_word w).channel_address = 0 ∧
      (decode_mesytec_vme_word w).mdpp_flags = 0 ∧
      (decode_mesytec_vme_word w).high_stamp = 0) ∧
    (decode_kind w = VMEWordKind.FillWord →
      (decode_mesytec_vme_word w).data_length = 0 ∧
      (decode_mesytec_vme_word w).module_id = 0 ∧
      (decode_mesytec_vme_word w).module_setting = 0 ∧
      (decode_mesytec_vme_word w).channel_address = 0 ∧
      (decode_mesytec_vme_word w).mdpp_flags = 0 ∧
      (decode_mesytec_vme_word w).high_stamp = 0 ∧
      (decode_mesytec_vme_word w).low_stamp = 0) ∧
    (decode_kind w = VMEWordKind.Unrecognized →
      (decode_mesytec_vme_word w).data_length = 0 ∧
      (decode_mesytec_vme_word w).module_id = 0 ∧
      (decode_mesytec_vme_word w).module_setting = 0 ∧
      (decode_mesytec_vme_word w).channel_address = 0 ∧
      (decode_mesytec_vme_word w).mdpp_flags = 0 ∧
      (decode_mesytec_vme_word w).high_stamp = 0 ∧
      (decode_mesytec_vme_word w).low_stamp = 0) := by
  obtain ⟨d1, d2, d3, d4, d5, d6, d7, d8, d9, d10⟩ := flags_disjoint w
  refine ⟨?_, ?_, ?_, ?_, ?_, ?_⟩
  · intro hk
    have hh := (kind_eq_header_iff w).mp hk
    exact ⟨decode_channel_address_of_not_data (d1 hh),
      decode_mdpp_flags_of_not_data (d1 hh),
      decode_high_stamp_of_not_ext (d2 hh),
      decode_low_stamp_of_not_eoe (d4 hh)⟩
  · intro hk
    obtain ⟨hh, hd⟩ := (kind_eq_data_iff w).mp hk
    exact ⟨decode_data_length_of_not_header hh,
      decode_module_id_of_not_header hh,
      decode_module_setting_of_not_header hh,
      decode_high_stamp_of_not_ext (d5 hd),
      decode_low_stamp_of_not_eoe (d7 hd)⟩
  · intro hk
    obtain ⟨hh, hd, he⟩ := (kind_eq_ext_iff w).mp hk
    exact ⟨decode_data_length_of_not_header hh,
      decode_module_id_of_not_header hh,
      decode_module_setting_of_not_header hh,
      decode_channel_address_of_not_data hd,
      decode_mdpp_flags_of_not_data hd,
      decode_low_stamp_of_not_eoe (d9 he)⟩
  · intro hk
    obtain ⟨hh, hd, he, -⟩ := (kind_eq_eoe_iff w).mp hk
    exact ⟨decode_data_length_of_not_header hh,
      decode_module_id_of_not_header hh,
      decode_module_setting_of_not_header hh,
      decode_channel_address_of_not_data hd,
      decode_mdpp_flags_of_not_data hd,
      decode_high_stamp_of_not_ext he⟩
  · intro hk
    obtain ⟨hh, hd, he, ho, -⟩ := (kind_eq_fill_iff w).mp hk
    exact ⟨decode_data_length_of_not_header hh,
      decode_module_id_of_not_header hh,
      decode_module_setting_of_not_header hh,
      decode_channel_address_of_not_data hd,
      decode_mdpp_flags_of_not_data hd,
      decode_high_stamp_of_not_ext he,
      decode_low_stamp_of_not_eoe ho⟩
  · intro hk
    obtain ⟨hh, hd, he, -, ho⟩ := (kind_eq_unrecognized_iff w).mp hk
    exact ⟨decode_data_length_of_not_header hh,
      decode_module_id_of_not_header hh,
      decode_module_setting_of_not_header hh,
      decode_channel_address_of_not_data hd,
      decode_mdpp_flags_of_not_data hd,
      decode_high_stamp_of_not_ext he,
      decode_low_stamp_of_not_eoe ho⟩

/-- Witness for C9 at the concrete extended-timestamp word `0x04800057`. -/
theorem C9_field_isolation_witness :
    0x04800057 < 2 ^ 32 ∧
    ((decode_kind 0x04800057 = VMEWordKind.ModuleHeader →
      (decode_mesytec_vme_word 0x04800057).channel_address = 0 ∧
      (decode_mesytec_vme_word 0x04800057).mdpp_flags = 0 ∧
      (decode_mesytec_vme_word 0x04800057).high_stamp = 0 ∧
      (decode_mesytec_vme_word 0x04800057).low_stamp = 0) ∧
    (decode_kind 0x04800057 = VMEWordKind.DataWord →
      (decode_mesytec_vme_word 0x04800057).data_length = 0 ∧
      (decode_mesytec_vme_word 0x04800057).module_id = 0 ∧
      (decode_mesytec_vme_word 0x04800057).module_setting = 0 ∧
      (decode_mesytec_vme_word 0x04800057).high_stamp = 0 ∧
      (decode_mesytec_vme_word 0x04800057).low_stamp = 0) ∧
    (decode_kind 0x04800057 = VMEWordKind.ExtendedTimestamp →
      (decode_mesytec_vme_word 0x04800057).data_length = 0 ∧
      (decode_mesytec_vme_word 0x04800057).module_id = 0 ∧
      (decode_mesytec_vme_word 0x04800057).module_setting = 0 ∧
      (decode_mesytec_vme_word 0x04800057).channel_address = 0 ∧
      (decode_mesytec_vme_word 0x04800057).mdpp_flags = 0 ∧
      (decode_mesytec_vme_word 0x04800057).low_stamp = 0) ∧
    (decode_kind 0x04800057 = VMEWordKind.EndOfEvent →
      (decode_mesytec_vme_word 0x04800057).data_length = 0 ∧
      (decode_mesytec_vme_word 0x04800057).module_id = 0 ∧
      (decode_mesytec_vme_word 0x04800057).module_setting = 0 ∧
      (decode_mesytec_vme_word 0x04800057).channel_address = 0 ∧
      (decode_mesytec_vme_word 0x04800057).mdpp_flags = 0 ∧
      (decode_mesytec_vme_word 0x04800057).high_stamp = 0) ∧
    (decode_kind 0x04800057 = VMEWordKind.FillWord →
      (decode_mesytec_vme_word 0x04800057).data_length = 0 ∧
      (decode_mesytec_vme_word 0x04800057).module_id = 0 ∧
      (decode_mesytec_vme_word 0x04800057).module_setting = 0 ∧
      (decode_mesytec_vme_word 0x04800057).channel_address = 0 ∧
      (decode_mesytec_vme_word 0x04800057).mdpp_flags = 0 ∧
      (decode_mesytec_vme_word 0x04800057).high_stamp = 0 ∧
      (decode_mesytec_vme_word 0x04800057).low_stamp = 0) ∧
    (decode_kind 0x04800057 = VMEWordKind.Unrecognized →
      (decode_mesytec_vme_word 0x04800057).data_length = 0 ∧
      (decode_mesytec_vme_word 0x04800057).module_id = 0 ∧
      (decode_mesytec_vme_word 0x04800057).module_setting = 0 ∧
      (decode_mesytec_vme_word 0x04800057).channel_address = 0 ∧
      (decode_mesytec_vme_word 0x04800057).mdpp_flags = 0 ∧
      (decode_mesytec_vme_word 0x04800057).high_stamp = 0 ∧
      (decode_mesytec_vme_word 0x04800057).low_stamp = 0)) :=
  ⟨by decide, C9_field_isolation 0x04800057 (by decide)⟩
